import Mathlib

/-!
# Verification of `search_with_langchain.py`

A shallow embedding of the core of the query gateway: the query
sanitization pipeline (`query_function`, lines 112-124), the stream
multiplexer (`_raw_stream_response`, lines 75-97), and the module-level
dispatch state (line 69).  Python values that flow through `json.dumps`
are modelled by the inductive `PyObj`; `json.dumps` is modelled by the
fallible serializer `json_dumps` (raising = `none`).  The generator
`_raw_stream_response` is modelled as a function from the staged item
list to the list of yielded objects paired with an outcome (`ok` for
normal completion, `failed` for an exception escaping the generator).
-/

/-- Line 18: `_default_query = "When was breath of the wild first released?"`. -/
def _default_query : String := "When was breath of the wild first released?"

/-- One left-to-right pass of `re.sub(r"\[/?INST\]", "", query)` (line 120):
at each position, a leftmost non-overlapping match of `[INST]` or `[/INST]`
is deleted and scanning resumes after it; any other character is kept. -/
def stripMarkers : List Char → List Char
  | '[' :: 'I' :: 'N' :: 'S' :: 'T' :: ']' :: rest => stripMarkers rest
  | '[' :: '/' :: 'I' :: 'N' :: 'S' :: 'T' :: ']' :: rest => stripMarkers rest
  | c :: cs => c :: stripMarkers cs
  | [] => []

/-- Line 120: `query = re.sub(r"\[/?INST\]", "", query)`. -/
def sanitize_query (s : String) : String := ⟨stripMarkers s.data⟩

/-- Lines 118-120: `query = query or _default_query` followed by the
marker removal.  A Python `str` is falsy exactly when it is empty. -/
def dispatched_query (q : String) : String :=
  sanitize_query (if q = "" then _default_query else q)

/-- `pat` matches at the head of the second list. -/
def leadMatch : List Char → List Char → Bool
  | [], _ => true
  | _ :: _, [] => false
  | p :: ps, c :: cs => p = c && leadMatch ps cs

/-- `pat` occurs as a contiguous substring of the second list. -/
def hasSub (pat : List Char) : List Char → Bool
  | [] => leadMatch pat []
  | c :: cs => leadMatch pat (c :: cs) || hasSub pat cs

example : sanitize_query "a[INST]b[/INST]c" = "abc" := by decide
example : sanitize_query "[[INST]INST]" = "[INST]" := by decide
example : dispatched_query "" = _default_query := by decide
example : hasSub "[INST]".data "x[INST]y".data = true := by decide
example : hasSub "[INST]".data "x[INSTy".data = false := by decide

/-- A model of the Python values that reach `json.dumps` in this module:
strings, lists, `None`, booleans, and a value that `json.dumps` rejects
(e.g. a set or a custom object), which makes `json.dumps` raise. -/
inductive PyObj where
  | pstr (s : String)
  | plist (xs : List PyObj)
  | pnone
  | pbool (b : Bool)
  | unserializable
deriving Repr

/-- JSON string escaping of a single character (quote and backslash). -/
def jsonEscapeChar (c : Char) : String :=
  if c = '\\' then "\\\\"
  else if c = '"' then "\\\""
  else String.singleton c

/-- JSON string escaping. -/
def jsonEscape (s : String) : String :=
  String.join (s.data.map jsonEscapeChar)

mutual

/-- Model of `json.dumps` (Python standard library, default separators):
`none` models the call raising an exception. -/
def json_dumps : PyObj → Option String
  | .pstr s => some ("\"" ++ jsonEscape s ++ "\"")
  | .plist xs =>
      match json_dumps_elems xs with
      | some ss => some ("[" ++ String.intercalate ", " ss ++ "]")
      | none => none
  | .pnone => some "null"
  | .pbool b => some (if b then "true" else "false")
  | .unserializable => none

/-- Serializes every element of a list; fails if any element fails. -/
def json_dumps_elems : List PyObj → Option (List String)
  | [] => some []
  | x :: xs =>
      match json_dumps x, json_dumps_elems xs with
      | some s, some ss => some (s :: ss)
      | _, _ => none

end

/-- Python truthiness of a `PyObj`: empty strings and lists and `None`
are falsy (`unserializable` models a truthy object such as a non-empty
set). -/
def pyFalsy : PyObj → Bool
  | .pstr s => s = ""
  | .plist xs => xs.isEmpty
  | .pnone => true
  | .pbool b => !b
  | .unserializable => false

/-- Whether the generator ran to completion or an exception escaped it. -/
inductive Outcome where
  | ok
  | failed
deriving DecidableEq, Repr

/-- Line 89: the disclaimer yielded before an empty LLM response. -/
def warning_msg : String :=
  "(The search engine returned nothing for this query. Please take the answer with a grain of salt.)\n\n"

/-- Lines 75-97, `_raw_stream_response(results)`: the generator consuming
`(step, data)` pairs.  Returns the list of objects it yields, in order,
together with the outcome: `failed` when `json.dumps` raises in the
`"contexts"` branch (line 85), where the exception is not caught and
escapes the generator, ending the stream with nothing yielded for that
item or any later one.  The `"llm_response"` branch yields `data` itself
(line 90), preceded by the disclaimer when `data` is falsy (lines 88-89);
the `"related_questions"` branch catches the serialization error and
substitutes `"[]"` (lines 93-96).  A pair whose `step` matches no branch
yields nothing. -/
def _raw_stream_response : List (String × PyObj) → List PyObj × Outcome
  | [] => ([], Outcome.ok)
  | (step, data) :: rest =>
      if step = "contexts" then
        match json_dumps data with
        | some s =>
            let r := _raw_stream_response rest
            (PyObj.pstr (s ++ "\n\n__LLM_RESPONSE__\n\n") :: r.1, r.2)
        | none => ([], Outcome.failed)
      else if step = "llm_response" then
        let r := _raw_stream_response rest
        if pyFalsy data then
          (PyObj.pstr warning_msg :: data :: r.1, r.2)
        else
          (data :: r.1, r.2)
      else if step = "related_questions" then
        let result :=
          match json_dumps data with
          | some s => s
          | none => "[]"
        let r := _raw_stream_response rest
        (PyObj.pstr ("\n\n__RELATED_QUESTIONS__\n\n" ++ result) :: r.1, r.2)
      else
        _raw_stream_response rest

/-- The byte stream obtained by concatenating the yielded chunks, defined
when every yielded object is a string (as the transport requires). -/
def emittedText : List PyObj → Option String
  | [] => some ""
  | PyObj.pstr s :: rest => (emittedText rest).map (fun t => s ++ t)
  | _ => none

example :
    _raw_stream_response
      [("contexts", PyObj.pnone), ("llm_response", PyObj.pstr "hi"),
       ("related_questions", PyObj.plist [PyObj.pstr "q"])] =
      ([PyObj.pstr "null\n\n__LLM_RESPONSE__\n\n", PyObj.pstr "hi",
        PyObj.pstr "\n\n__RELATED_QUESTIONS__\n\n[\"q\"]"], Outcome.ok) := by
  rfl

example :
    _raw_stream_response [("llm_response", PyObj.pstr "a"), ("llm_response", PyObj.pstr "")] =
      ([PyObj.pstr "a", PyObj.pstr warning_msg, PyObj.pstr ""], Outcome.ok) := by
  rfl

example :
    _raw_stream_response [("contexts", PyObj.unserializable), ("llm_response", PyObj.pstr "x")] =
      ([], Outcome.failed) := by
  rfl

example :
    _raw_stream_response [("answer", PyObj.pstr "hi")] = ([], Outcome.ok) := by
  rfl

example :
    _raw_stream_response [("related_questions", PyObj.unserializable)] =
      ([PyObj.pstr "\n\n__RELATED_QUESTIONS__\n\n[]"], Outcome.ok) := by
  rfl

/-- Line 69: `executor = concurrent.futures.ThreadPoolExecutor(max_workers=16)`. -/
def executor_max_workers : Nat := 16

/-- Lines 27-30, the pydantic model `QueryRequest`:
`query: str`, `search_uuid: str`,
`generate_related_questions: Optional[bool] = True` (so the field can
hold `True`, `False`, or an explicit `None`). -/
structure QueryRequest where
  query : String
  search_uuid : String
  generate_related_questions : Option Bool := some true
deriving DecidableEq, Repr

/-- Python `repr`/f-string rendering of an `Optional[bool]`. -/
def pyShowOptBool : Option Bool → String
  | some true => "True"
  | some false => "False"
  | none => "None"

/-- The observable actions of the `/query` handler body, in program
order: `logger.info` calls, a submission to the module-level `executor`
(`executor.submit(...)` — present in the trace only if the source
performs one), the direct invocation `search_with_llm(query,
generate_related_questions)`, and the final `StreamingResponse` return. -/
inductive Step where
  | logInfo (msg : String)
  | executorSubmit
  | callSearchWithLLM (query : String) (generateRelated : Option Bool)
  | returnStreamingResponse
deriving DecidableEq, Repr

/-- Lines 100-124, `query_function(body)`: the sequence of observable
actions the handler performs.  Lines 115-117 log the raw field values;
line 118 substitutes the default for an empty query; line 120 strips the
markers; line 122 calls `search_with_llm` directly (the module-level
`executor` of line 69 is not referenced); line 124 returns the
`StreamingResponse` over `_raw_stream_response(results)`. -/
def query_function (body : QueryRequest) : List Step :=
  [ Step.logInfo ("Received query: " ++ body.query),
    Step.logInfo ("Received search_uuid: " ++ body.search_uuid),
    Step.logInfo ("Received generate_related_questions: " ++
      pyShowOptBool body.generate_related_questions),
    Step.callSearchWithLLM (dispatched_query body.query) body.generate_related_questions,
    Step.returnStreamingResponse ]

example :
    Step.executorSubmit ∉ query_function ⟨"hello", "id1", some true⟩ := by
  decide

/-! ## Helper lemmas -/

/-- The single-pass marker removal only ever deletes characters: its
output is a subsequence of its input. -/
theorem stripMarkers_sublist : ∀ cs : List Char, List.Sublist (stripMarkers cs) cs := by
  intro cs
  induction cs using stripMarkers.induct with
  | case1 rest ih =>
      rw [stripMarkers]
      exact ((((((ih.cons _).cons _).cons _).cons _).cons _).cons _)
  | case2 rest ih =>
      rw [stripMarkers]
      exact (((((((ih.cons _).cons _).cons _).cons _).cons _).cons _).cons _)
  | case3 c cs h1 h2 ih =>
      have hstep : stripMarkers (c :: cs) = c :: stripMarkers cs := by
        rw [stripMarkers.eq_def]
        split
        · next rest heq =>
            exact absurd heq (by intro h; injection h with hc hcs; exact h1 rest hc hcs)
        · next rest heq =>
            exact absurd heq (by intro h; injection h with hc hcs; exact h2 rest hc hcs)
        · next c' cs' heq => injection heq with hc hcs; rw [hc, hcs]
        · next heq => exact absurd heq (by simp)
      rw [hstep]
      exact ih.cons₂ _
  | case4 =>
      exact List.Sublist.refl _

/-! ## Claims -/

/-- C1 (counterexample): the input `"[[INST]INST]"` contains `[INST]`,
yet the query dispatched to the backend for it, `"[INST]"`, still
contains `[INST]`: the single `re.sub` pass splices a new marker
occurrence out of the retained characters, refuting "the query dispatched
to the backend contains neither substring". -/
theorem C1_counterexample :
    hasSub "[INST]".data "[[INST]INST]".data = true ∧
    dispatched_query "[[INST]INST]" = "[INST]" ∧
    hasSub "[INST]".data (dispatched_query "[[INST]INST]").data = true := by
  refine ⟨by decide, by decide, by decide⟩

/-- C1 (amended): for every nonempty input query, the dispatched query
is obtained by deleting, in one left-to-right pass, each non-overlapping
occurrence of `[INST]` or `[/INST]`; all characters not belonging to a
removed occurrence appear in their original relative order (the output
is a subsequence of the input).  The dispatched query may however still
contain `[INST]` or `[/INST]`, spliced from retained characters. -/
theorem C1_amended_order_preserved :
    ∀ q : String, q ≠ "" → List.Sublist (dispatched_query q).data q.data := by
  intro q hq
  unfold dispatched_query
  rw [if_neg hq]
  exact stripMarkers_sublist q.data

/-- C1 (witness for the amended theorem). -/
theorem C1_amended_witness :
    "a[INST]b" ≠ "" ∧ List.Sublist (dispatched_query "a[INST]b").data "a[INST]b".data :=
  ⟨by decide, C1_amended_order_preserved "a[INST]b" (by decide)⟩

/-- C6: a request with an empty query string dispatches exactly the
fixed default literal to the backend (the default contains no marker, so
sanitization leaves it intact), and this path raises no error. -/
theorem C6_empty_query_default : dispatched_query "" = _default_query := by
  decide

/-- C5 (counterexample): for the concrete request
`{query := "hello", search_uuid := "id1", generate_related_questions := True}`,
the handler's action trace contains no submission to the module-level
executor at all; the backend call `search_with_llm` appears in the trace
as a direct invocation on the request-handling path.  This refutes
"every blocking backend call runs on a worker of the dispatch pool". -/
theorem C5_counterexample :
    Step.executorSubmit ∉ query_function ⟨"hello", "id1", some true⟩ ∧
    Step.callSearchWithLLM "hello" (some true) ∈ query_function ⟨"hello", "id1", some true⟩ := by
  refine ⟨by decide, by decide⟩

/-- C5 (amended): the module creates a fixed-size pool of capacity 16 at
startup, but never submits any job to it: for every request, the
handler's trace contains no executor submission and contains the direct
call `search_with_llm(sanitized query, generate_related_questions)`. -/
theorem C5_amended_executor_unused :
    executor_max_workers = 16 ∧
    ∀ body : QueryRequest,
      Step.executorSubmit ∉ query_function body ∧
      Step.callSearchWithLLM (dispatched_query body.query) body.generate_related_questions ∈
        query_function body := by
  refine ⟨rfl, fun body => ⟨?_, ?_⟩⟩
  · simp [query_function]
  · simp [query_function]

/-- C7: a `related_questions` item whose payload cannot be serialized
yields the related-questions delimiter followed by exactly the literal
`"[]"`, and the stream continues with the remaining items unchanged: the
error is recovered locally and never escalated. -/
theorem C7_related_questions_fallback :
    ∀ (d : PyObj) (rest : List (String × PyObj)),
      json_dumps d = none →
      _raw_stream_response (("related_questions", d) :: rest) =
        (PyObj.pstr ("\n\n__RELATED_QUESTIONS__\n\n" ++ "[]") :: (_raw_stream_response rest).1,
         (_raw_stream_response rest).2) := by
  intro d rest h
  simp [_raw_stream_response, h]
  rfl

/-- C7 (witness). -/
theorem C7_witness :
    json_dumps PyObj.unserializable = none ∧
    _raw_stream_response [("related_questions", PyObj.unserializable)] =
      ([PyObj.pstr ("\n\n__RELATED_QUESTIONS__\n\n" ++ "[]")], Outcome.ok) :=
  ⟨rfl, C7_related_questions_fallback PyObj.unserializable [] rfl⟩

/-- C10: a `contexts` item whose payload cannot be serialized makes the
exception escape the generator: nothing is yielded for that item (no
contexts frame, no delimiter) nor for any later item, and the stream
terminates with a failure. -/
theorem C10_contexts_failure_propagates :
    ∀ (d : PyObj) (rest : List (String × PyObj)),
      json_dumps d = none →
      _raw_stream_response (("contexts", d) :: rest) = ([], Outcome.failed) := by
  intro d rest h
  simp [_raw_stream_response, h]

/-- C10 (witness): with an `llm_response` item after the failing
`contexts` item, the output is still empty and failed. -/
theorem C10_witness :
    json_dumps PyObj.unserializable = none ∧
    _raw_stream_response [("contexts", PyObj.unserializable), ("llm_response", PyObj.pstr "x")] =
      ([], Outcome.failed) :=
  ⟨rfl, C10_contexts_failure_propagates PyObj.unserializable [("llm_response", PyObj.pstr "x")] rfl⟩

/-- C9: an item whose step name is none of the three recognized literals
yields nothing and the stream continues with the next item without
failing; and the answer-emitting branch is selected by exact match on
the literal `"llm_response"`. -/
theorem C9_unrecognized_stage :
    (∀ (step : String) (d : PyObj) (rest : List (String × PyObj)),
        step ≠ "contexts" → step ≠ "llm_response" → step ≠ "related_questions" →
        _raw_stream_response ((step, d) :: rest) = _raw_stream_response rest) ∧
    (∀ s : String,
        _raw_stream_response [("llm_response", PyObj.pstr s)] =
          (if s = "" then [PyObj.pstr warning_msg, PyObj.pstr s] else [PyObj.pstr s],
           Outcome.ok)) := by
  constructor
  · intro step d rest h1 h2 h3
    simp [_raw_stream_response, h1, h2, h3]
  · intro s
    by_cases h : s = ""
    · subst h
      simp [_raw_stream_response, pyFalsy]
    · simp [_raw_stream_response, pyFalsy, h]

/-- C9 (witness): the stage name `"answer"` matches no branch, so the
item yields nothing. -/
theorem C9_witness :
    _raw_stream_response [("answer", PyObj.pstr "x")] = _raw_stream_response [] :=
  C9_unrecognized_stage.1 "answer" (PyObj.pstr "x") [] (by decide) (by decide) (by decide)

/-- C4 (counterexample): a pair tagged with the stage name `"answer"` is
not handled by any branch: the multiplexer emits nothing for it, not the
pair's string payload, refuting the claim that `"answer"`-tagged pairs
reach the answer-emitting branch. -/
theorem C4_counterexample :
    _raw_stream_response [("answer", PyObj.pstr "hi")] = ([], Outcome.ok) ∧
    PyObj.pstr "hi" ∉ (_raw_stream_response [("answer", PyObj.pstr "hi")]).1 := by
  refine ⟨rfl, ?_⟩
  rw [show (_raw_stream_response [("answer", PyObj.pstr "hi")]).1 = [] from rfl]
  exact List.not_mem_nil _

/-- C4 (amended): the answer-emitting branch is selected by exact match
on the literal stage name `"llm_response"`, not `"answer"`: a pair
tagged `"answer"` matches no branch and emits nothing, while a pair
tagged `"llm_response"` with a nonempty string payload emits exactly
that payload. -/
theorem C4_amended_llm_response_branch :
    (∀ (d : PyObj) (rest : List (String × PyObj)),
        _raw_stream_response (("answer", d) :: rest) = _raw_stream_response rest) ∧
    (∀ s : String, s ≠ "" →
        _raw_stream_response [("llm_response", PyObj.pstr s)] = ([PyObj.pstr s], Outcome.ok)) := by
  constructor
  · intro d rest
    simp [_raw_stream_response]
  · intro s h
    simp [_raw_stream_response, pyFalsy, h]

/-- C4 (witness for the amended theorem). -/
theorem C4_witness :
    "hi" ≠ "" ∧
    _raw_stream_response [("llm_response", PyObj.pstr "hi")] = ([PyObj.pstr "hi"], Outcome.ok) :=
  ⟨by decide, C4_amended_llm_response_branch.2 "hi" (by decide)⟩

/-- C3 (counterexample): for the staged sequence
`[AnswerChunk("a"), AnswerChunk("")]` the multiplexer inserts the
disclaimer between the two chunks — before the *second* answer-bearing
item, which is not the first — refuting both "only before the first
answer-bearing item" and "nothing inserted between consecutive answer
chunks". -/
theorem C3_counterexample :
    _raw_stream_response [("llm_response", PyObj.pstr "a"), ("llm_response", PyObj.pstr "")] =
      ([PyObj.pstr "a", PyObj.pstr warning_msg, PyObj.pstr ""], Outcome.ok) ∧
    warning_msg ≠ "" ∧
    emittedText (_raw_stream_response
      [("llm_response", PyObj.pstr "a"), ("llm_response", PyObj.pstr "")]).1 ≠ some "a" := by
  refine ⟨rfl, by decide, by decide⟩

/-- C3 (amended): the multiplexer emits the fixed disclaimer line before
*every* `AnswerChunk` whose text is empty — not only the first
answer-bearing item; each chunk's text is then emitted verbatim in
arrival order, with nothing else inserted between consecutive chunks.
In particular, for the sequence `[AnswerChunk("")]` alone, the output
begins with the disclaimer with nothing before it. -/
theorem C3_amended_disclaimer_every_empty_chunk :
    (∀ ts : List String,
        _raw_stream_response (ts.map fun t => ("llm_response", PyObj.pstr t)) =
          ((ts.map fun t =>
              if t = "" then [PyObj.pstr warning_msg, PyObj.pstr t] else [PyObj.pstr t]).flatten,
           Outcome.ok)) ∧
    _raw_stream_response [("llm_response", PyObj.pstr "")] =
      ([PyObj.pstr warning_msg, PyObj.pstr ""], Outcome.ok) := by
  constructor
  · intro ts
    induction ts with
    | nil => rfl
    | cons t ts ih =>
        by_cases h : t = ""
        · subst h
          simp [_raw_stream_response, pyFalsy, ih]
        · simp [_raw_stream_response, pyFalsy, h, ih]
  · rfl

/-- C2: for the staged sequence
`[Contexts(c), AnswerChunk("a1"), AnswerChunk("a2"), RelatedQuestions([q1, q2])]`
the multiplexer yields, in order, exactly the contexts serialization
followed by the LLM-response delimiter, the two answer chunks verbatim,
and the related-questions delimiter followed by the serialization of
`[q1, q2]`; concatenated, these are exactly the claimed bytes, with no
extra bytes, and the stream completes normally. -/
theorem C2_staged_sequence_bytes :
    ∀ (c : PyObj) (q1 q2 sc sq : String),
      json_dumps c = some sc →
      json_dumps (PyObj.plist [PyObj.pstr q1, PyObj.pstr q2]) = some sq →
      _raw_stream_response
        [("contexts", c), ("llm_response", PyObj.pstr "a1"), ("llm_response", PyObj.pstr "a2"),
         ("related_questions", PyObj.plist [PyObj.pstr q1, PyObj.pstr q2])] =
        ([PyObj.pstr (sc ++ "\n\n__LLM_RESPONSE__\n\n"), PyObj.pstr "a1", PyObj.pstr "a2",
          PyObj.pstr ("\n\n__RELATED_QUESTIONS__\n\n" ++ sq)], Outcome.ok) ∧
      emittedText
        [PyObj.pstr (sc ++ "\n\n__LLM_RESPONSE__\n\n"), PyObj.pstr "a1", PyObj.pstr "a2",
         PyObj.pstr ("\n\n__RELATED_QUESTIONS__\n\n" ++ sq)] =
        some (sc ++ ("\n\n__LLM_RESPONSE__\n\n" ++ ("a1" ++ ("a2" ++
          ("\n\n__RELATED_QUESTIONS__\n\n" ++ sq))))) := by
  intro c q1 q2 sc sq hc hq
  constructor
  · simp [_raw_stream_response, hc, hq, pyFalsy]
  · simp [emittedText, String.append_empty, String.append_assoc]

/-- C2 (witness): instantiated at `c = None`, `q1 = "x"`, `q2 = "y"`. -/
theorem C2_witness :
    json_dumps PyObj.pnone = some "null" ∧
    json_dumps (PyObj.plist [PyObj.pstr "x", PyObj.pstr "y"]) = some "[\"x\", \"y\"]" ∧
    (_raw_stream_response
        [("contexts", PyObj.pnone), ("llm_response", PyObj.pstr "a1"),
         ("llm_response", PyObj.pstr "a2"),
         ("related_questions", PyObj.plist [PyObj.pstr "x", PyObj.pstr "y"])] =
        ([PyObj.pstr ("null" ++ "\n\n__LLM_RESPONSE__\n\n"), PyObj.pstr "a1", PyObj.pstr "a2",
          PyObj.pstr ("\n\n__RELATED_QUESTIONS__\n\n" ++ "[\"x\", \"y\"]")], Outcome.ok) ∧
      emittedText
        [PyObj.pstr ("null" ++ "\n\n__LLM_RESPONSE__\n\n"), PyObj.pstr "a1", PyObj.pstr "a2",
         PyObj.pstr ("\n\n__RELATED_QUESTIONS__\n\n" ++ "[\"x\", \"y\"]")] =
        some ("null" ++ ("\n\n__LLM_RESPONSE__\n\n" ++ ("a1" ++ ("a2" ++
          ("\n\n__RELATED_QUESTIONS__\n\n" ++ "[\"x\", \"y\"]")))))) :=
  ⟨rfl, rfl, C2_staged_sequence_bytes PyObj.pnone "x" "y" "null" "[\"x\", \"y\"]" rfl rfl⟩

/-- C8: on every staged sequence whose `contexts` payloads are
serializable (as the data model guarantees), including sequences that
violate the `Contexts` / `AnswerChunk` / `RelatedQuestions` ordering,
the multiplexer's output is the concatenation, in input order, of the
frames each item produces on its own, and the stream completes
normally: the pass is a homomorphism that never reorders, drops,
validates, or rejects items based on their position. -/
theorem C8_stream_homomorphism :
    ∀ xs : List (String × PyObj),
      (∀ it ∈ xs, it.1 = "contexts" → (json_dumps it.2).isSome = true) →
      _raw_stream_response xs =
        ((xs.map fun it => (_raw_stream_response [it]).1).flatten, Outcome.ok) := by
  intro xs
  induction xs with
  | nil => intro h; rfl
  | cons hd rest ih =>
      intro h
      obtain ⟨step, data⟩ := hd
      have hhead : step = "contexts" → (json_dumps data).isSome = true :=
        h _ (List.mem_cons_self _ _)
      have ih' := ih fun it hit => h it (List.mem_cons_of_mem _ hit)
      by_cases h1 : step = "contexts"
      · subst h1
        obtain ⟨s, hs⟩ := Option.isSome_iff_exists.mp (hhead rfl)
        simp [_raw_stream_response, hs, ih']
      · by_cases h2 : step = "llm_response"
        · subst h2
          cases hf : pyFalsy data <;> simp [_raw_stream_response, hf, ih']
        · by_cases h3 : step = "related_questions"
          · subst h3
            cases hd' : json_dumps data <;> simp [_raw_stream_response, hd', ih']
          · simp [_raw_stream_response, h1, h2, h3, ih']

/-- C8 (witness): instantiated at a singleton out-of-order-free sample. -/
theorem C8_witness :
    _raw_stream_response [("llm_response", PyObj.pstr "a")] =
      (([("llm_response", PyObj.pstr "a")].map fun it => (_raw_stream_response [it]).1).flatten,
       Outcome.ok) :=
  C8_stream_homomorphism [("llm_response", PyObj.pstr "a")] (by decide)
